import Mathlib

/-!
Shallow embedding of the core of `src/app.py` (GitHub Unfollower Pro): the
rate-limit-aware API client, pagination loop, relationship cache, single-entity
follow/unfollow operations, relationship-set computation, and the bulk loops.

Network effects are made explicit: each embedded operation takes the server's
answers as arguments (an oracle for the responses the Python `requests` calls
would observe) and returns, besides its Python return value, the updated cache
state and a count of the network fetches it performed.  Time is an explicit
`Nat` argument standing for `time.time()`.
-/

namespace App

/-- HTTP methods supported by `make_api_request` (src/app.py lines 103-110). -/
inductive Method where
  | GET
  | DELETE
  | PUT
  deriving DecidableEq

/-- The server's answer to one HTTP request: an HTTP status code together with
the `X-RateLimit-Reset` header value, or a transport-level failure
(`requests.exceptions.RequestException`). -/
inductive ServerAnswer where
  | status (code : Nat) (reset : Nat)
  | transportFail
  deriving DecidableEq

/-- Outcome of `make_api_request` as seen by its caller: a returned response
with the given status code, a raised `RateLimitExceededError` carrying the
reset time, or a raised `GitHubAPIError` carrying the status code (0 for
transport failures, mirroring `GitHubAPIError(0, str(e), url)`). -/
inductive ApiResult where
  | ok (code : Nat)
  | errRate (reset : Nat)
  | errApi (code : Nat)
  deriving DecidableEq

/-- Embedding of `make_api_request` (src/app.py lines 95-135): a 429 raises
`RateLimitExceededError`; any other status at or above 400 raises
`GitHubAPIError`, except that a 404 on a DELETE is returned to the caller
unchanged; a transport exception raises `GitHubAPIError` with code 0. -/
def make_api_request (method : Method) (ans : ServerAnswer) : ApiResult :=
  match ans with
  | .transportFail => .errApi 0
  | .status code reset =>
    if code = 429 then .errRate reset
    else if 400 ≤ code then
      if method = .DELETE ∧ code = 404 then .ok 404 else .errApi code
    else .ok code

/-- Model of Python's `str.strip()` as used at src/app.py line 287:
drop whitespace from both ends. -/
def py_strip (s : String) : String :=
  ⟨((s.data.dropWhile Char.isWhitespace).reverse.dropWhile Char.isWhitespace).reverse⟩

/-- Model of Python's `str.lower()` as used at src/app.py line 319. -/
def py_lower (s : String) : String :=
  ⟨s.data.map Char.toLower⟩

/-- Embedding of `unfollow_user` (src/app.py lines 284-315): strip the name,
refuse an empty name, issue one DELETE; 204 and 404 statuses return `true`;
a raised `GitHubAPIError` returns `true` when its code is 404 and `false`
otherwise (a `RateLimitExceededError` is a `GitHubAPIError` with code 429,
hence `false`); every other status returns `false`. -/
def unfollow_user (username : String) (ans : ServerAnswer) : Bool :=
  let u := py_strip username
  if u = "" then false
  else
    match make_api_request .DELETE ans with
    | .ok code => if code = 204 then true else if code = 404 then true else false
    | .errRate _ => false
    | .errApi code => if code = 404 then true else false

/-- Model of the remote service handling `DELETE /user/following/{u}`:
if `u` is in the stored following list, answer 204 and remove it; otherwise
answer 404 and leave the list unchanged. -/
def server_delete (st : List String) (u : String) : ServerAnswer × List String :=
  if u ∈ st then (.status 204 0, st.erase u) else (.status 404 0, st)

/-- Cache timeout in seconds (src/app.py line 32). -/
def CACHE_TIMEOUT : Nat := 300

/-- Low-water rate limit threshold (src/app.py line 45). -/
def MIN_RATE_LIMIT_THRESHOLD : ℤ := 100

/-- The module-level cache state of src/app.py lines 33-40: `cache_data` and
`cache_timestamp` for the two relations. Startup state is empty lists with
timestamp 0. -/
structure Cache where
  data_following : List String
  ts_following : Nat
  data_followers : List String
  ts_followers : Nat
  deriving DecidableEq

/-- Embedding of `get_following` (src/app.py lines 199-229). `now` is
`time.time()`; `fetch` is the outcome of `get_paginated` on the following
endpoint, already reduced to the list of login names (`none` = the fetch
raised).  Returns the Python result (`none` when the function re-raises the
fetch error) paired with the updated cache and the number of network fetch
attempts (0 on a cache hit, 1 otherwise).  The cache-hit test is Python's
`if not force_refresh and cache_data["following"] and (current_time -
cache_timestamp["following"] < CACHE_TIMEOUT)`: note the truthiness test
`cache_data["following"]`, which fails on an empty list. -/
def get_following (force_refresh : Bool) (now : Nat) (c : Cache)
    (fetch : Option (List String)) : Option (List String × Cache) × Nat :=
  if force_refresh = false ∧ c.data_following ≠ [] ∧
      now - c.ts_following < CACHE_TIMEOUT then
    (some (c.data_following, c), 0)
  else
    match fetch with
    | some lst =>
      (some (lst, { c with data_following := lst, ts_following := now }), 1)
    | none =>
      if c.data_following ≠ [] then (some (c.data_following, c), 1)
      else (none, 1)

/-- Embedding of `get_followers` (src/app.py lines 231-261), structurally
identical to `get_following` on the followers entry. -/
def get_followers (force_refresh : Bool) (now : Nat) (c : Cache)
    (fetch : Option (List String)) : Option (List String × Cache) × Nat :=
  if force_refresh = false ∧ c.data_followers ≠ [] ∧
      now - c.ts_followers < CACHE_TIMEOUT then
    (some (c.data_followers, c), 0)
  else
    match fetch with
    | some lst =>
      (some (lst, { c with data_followers := lst, ts_followers := now }), 1)
    | none =>
      if c.data_followers ≠ [] then (some (c.data_followers, c), 1)
      else (none, 1)

/-- Embedding of `follow_user` (src/app.py lines 317-344).  The name is
lowercased and stripped; membership is tested against `get_following()` (which
may itself fetch over the network); on a miss one PUT is issued, and a 204
answer sets `cache_timestamp["following"] = 0`.  Result components: the Bool
the Python function returns, the cache afterwards, the number of network
fetches of the following list performed by the membership check, and whether a
PUT was issued.  A `get_following` failure is caught by the `except` clauses
and yields `false`. -/
def follow_user (username : String) (now : Nat) (c : Cache)
    (fetch : Option (List String)) (putAns : ServerAnswer) :
    Bool × Cache × Nat × Bool :=
  let uname := py_strip (py_lower username)
  match get_following false now c fetch with
  | (none, k) => (false, c, k, false)
  | (some (lst, c1), k) =>
    if uname ∈ lst then (true, c1, k, false)
    else
      match make_api_request .PUT putAns with
      | .ok code =>
        if code = 204 then (true, { c1 with ts_following := 0 }, k, true)
        else (false, c1, k, true)
      | .errRate _ => (false, c1, k, true)
      | .errApi _ => (false, c1, k, true)

/-- Embedding of `get_user_info` (src/app.py lines 263-282): one GET; a 200
status returns the decoded body, any other status or raised error returns
`None`. -/
def get_user_info (ans : ServerAnswer) (body : String) : Option String :=
  match make_api_request .GET ans with
  | .ok code => if code = 200 then some body else none
  | .errRate _ => none
  | .errApi _ => none

/-- Embedding of `calculate_adaptive_delay` (src/app.py lines 85-93), in
seconds as a rational (the Python floats 2.0, 1.0, 0.2). -/
def calculate_adaptive_delay (remaining : ℤ) : ℚ :=
  if remaining ≤ MIN_RATE_LIMIT_THRESHOLD then 2
  else if remaining ≤ 1000 then 1
  else 1 / 5

/-- Embedding of the wait computed on a 429 inside `get_paginated`
(src/app.py lines 176-179): `wait_time = reset_time - now + 5`, slept as
`max(1, wait_time)`. Integer seconds. -/
def rate_limit_wait (reset_time now : ℤ) : ℤ :=
  max 1 (reset_time - now + 5)

/-- One server response inside a pagination run: a 200 page carrying its items
and whether a `next` link is present, a 429, or some other API error. -/
inductive PageResp (α : Type) where
  | page (items : List α) (hasNext : Bool)
  | rateLimited (reset : Nat)
  | apiError (code : Nat)

/-- Embedding of the `while current_url` loop of `get_paginated`
(src/app.py lines 137-197) over the stream of successive server responses.
On a 200 page the items are appended and the `next` link followed (loop ends
when absent); on a 429 the loop sleeps and retries the same URL, consuming the
next response; on any other `GitHubAPIError` the error propagates.  Returns
`none` if the response stream is exhausted while the loop still awaits a
response, otherwise the outcome (`Except.error code` = raised error) paired
with the total number of requests issued (Python's `page_count`, which is also
incremented on retried pages). -/
def get_paginated {α : Type} : List (PageResp α) → Option (Except Nat (List α) × Nat)
  | [] => none
  | .page items hasNext :: rest =>
    if hasNext then
      match get_paginated rest with
      | none => none
      | some (.ok more, n) => some (.ok (items ++ more), n + 1)
      | some (.error e, n) => some (.error e, n + 1)
    else some (.ok items, 1)
  | .rateLimited _ :: rest =>
    match get_paginated rest with
    | none => none
    | some (r, n) => some (r, n + 1)
  | .apiError code :: _ => some (.error code, 1)

/-- Response stream of a well-behaved server holding the given pages, which
additionally answers 429 a prescribed number of times before each page:
before serving page `k` it answers `glitches[k]` rate-limit responses (the
retried request targets the same page, so the page's items are served exactly
once).  The last page carries no `next` link. -/
def server_stream {α : Type} : List (List α) → List Nat → List (PageResp α)
  | [], _ => []
  | p :: ps, glitches =>
    List.replicate (glitches.headD 0) (PageResp.rateLimited 0)
      ++ (PageResp.page p (!ps.isEmpty) :: server_stream ps glitches.tail)

/-- Embedding of the relationship computation of `get_account_stats`
(src/app.py lines 356-362): Python `set()` of each list, then intersection
and the two differences, returned as (mutuals, non_mutuals,
not_following_back). -/
def get_account_stats (following followers : List String) :
    Finset String × Finset String × Finset String :=
  (following.toFinset ∩ followers.toFinset,
   following.toFinset \ followers.toFinset,
   followers.toFinset \ following.toFinset)

/-- The accumulator loop shared by `execute_full_unfollow` (src/app.py lines
543-569) and `follow_selected_users` (src/app.py lines 638-653): process the
identities in order, record one outcome per identity, count successes;
`outcome u` is the Bool the per-item `unfollow_user`/`follow_user` call
returns.  A failed item is recorded and the loop continues. -/
def bulk_loop (outcome : String → Bool) :
    List String → List (String × Bool) → Nat → List (String × Bool) × Nat
  | [], acc, n => (acc.reverse, n)
  | u :: rest, acc, n =>
    bulk_loop outcome rest ((u, outcome u) :: acc)
      (if outcome u then n + 1 else n)

/-- Per-item results and success count of `execute_full_unfollow`
(src/app.py lines 543-581) over its list of non-mutual users. -/
def execute_full_unfollow (outcome : String → Bool) (non_mutuals : List String) :
    List (String × Bool) × Nat :=
  bulk_loop outcome non_mutuals [] 0

/-- Model of Python's `str.split(',')` as used at src/app.py line 633:
split the character list on commas. -/
def py_split_comma (s : String) : List String :=
  (s.data.splitOn ',').map (fun l => (⟨l⟩ : String))

/-- Parsing of the comma-separated username string in `follow_selected_users`
(src/app.py line 633): split on commas, strip, drop empties. -/
def parse_usernames (s : String) : List String :=
  ((py_split_comma s).map py_strip).filter (fun u => !(u = ""))

/-- Per-item results and success count of `follow_selected_users`
(src/app.py lines 628-663). -/
def follow_selected_users (outcome : String → Bool) (usernames : String) :
    List (String × Bool) × Nat :=
  bulk_loop outcome (parse_usernames usernames) [] 0

end App

namespace App

/-- Running `get_paginated` through a block of 429 answers adds one retried
request per 429 and changes nothing else: the same page is retried and its
outcome is whatever the rest of the stream produces. -/
theorem get_paginated_rate_run {α : Type} (g : Nat) (rest : List (PageResp α))
    (r : Except Nat (List α)) (n : Nat) (h : get_paginated rest = some (r, n)) :
    get_paginated (List.replicate g (PageResp.rateLimited 0) ++ rest) =
      some (r, n + g) := by
  induction g with
  | zero => simpa using h
  | succ g ih =>
    rw [List.replicate_succ, List.cons_append]
    simp only [get_paginated, ih]
    rfl

/-- Core pagination lemma: on a server holding `pages` that answers
`glitches[k]` rate-limit responses before serving page `k`, the loop returns
the concatenation of all pages in order, with one request per page plus one
per 429. -/
theorem server_stream_spec {α : Type} (pages : List (List α)) :
    ∀ glitches : List Nat, pages ≠ [] → glitches.length = pages.length →
      get_paginated (server_stream pages glitches) =
        some (Except.ok pages.flatten, pages.length + glitches.sum) := by
  induction pages with
  | nil => intro glitches h _; exact absurd rfl h
  | cons p ps ih =>
    intro glitches _ hlen
    cases glitches with
    | nil => exact absurd hlen (by simp)
    | cons g gs =>
      have hgs : gs.length = ps.length := by simpa using hlen
      cases ps with
      | nil =>
        have hgs0 : gs = [] := List.eq_nil_of_length_eq_zero hgs
        subst hgs0
        have hbase : get_paginated [PageResp.page p false] =
            some (Except.ok p, 1) := by
          simp [get_paginated]
        have hfin := get_paginated_rate_run g [PageResp.page p false]
          (Except.ok p) 1 hbase
        simpa [server_stream] using hfin
      | cons q qs =>
        have hrec := ih gs (by simp) hgs
        have hnext : get_paginated
            (PageResp.page p true :: server_stream (q :: qs) gs) =
            some (Except.ok (p ++ (q :: qs).flatten), (q :: qs).length + gs.sum + 1) := by
          simp [get_paginated, hrec]
        have hfin := get_paginated_rate_run g
          (PageResp.page p true :: server_stream (q :: qs) gs)
          (Except.ok (p ++ (q :: qs).flatten)) ((q :: qs).length + gs.sum + 1) hnext
        have hcount : (q :: qs).length + gs.sum + 1 + g =
            (p :: q :: qs).length + (g :: gs).sum := by
          simp only [List.length_cons, List.sum_cons]
          omega
        calc get_paginated (server_stream (p :: q :: qs) (g :: gs))
            = some (Except.ok (p ++ (q :: qs).flatten),
                (q :: qs).length + gs.sum + 1 + g) := hfin
          _ = some (Except.ok ((p :: q :: qs).flatten),
                (p :: q :: qs).length + (g :: gs).sum) := by
              rw [hcount]; simp [List.flatten]

/-- The bulk accumulator loop records one outcome per identity, in input
order, and counts exactly the successes. -/
theorem bulk_loop_spec (outcome : String → Bool) (users : List String) :
    ∀ (acc : List (String × Bool)) (n : Nat),
      bulk_loop outcome users acc n =
        (acc.reverse ++ users.map (fun u => (u, outcome u)),
         n + (users.filter outcome).length) := by
  induction users with
  | nil => intro acc n; simp [bulk_loop]
  | cons u rest ih =>
    intro acc n
    cases h : outcome u <;> simp [bulk_loop, h, ih, List.filter_cons] <;> omega

end App

namespace App

/-- C1: for every pair of lists `following` and `followers`, the snapshot of
`get_account_stats` satisfies mutuals = following ∩ followers, nonMutuals =
following \ followers, notFollowingBack = followers \ following; mutuals ∪
nonMutuals = following and mutuals ∪ notFollowingBack = followers as sets; the
three derived sets are pairwise disjoint; and on following = {a,b,c},
followers = {b,c,d} the result is mutuals = {b,c}, nonMutuals = {a},
notFollowingBack = {d}. -/
theorem get_account_stats_partition (following followers : List String) :
    (get_account_stats following followers).1 =
      following.toFinset ∩ followers.toFinset ∧
    (get_account_stats following followers).2.1 =
      following.toFinset \ followers.toFinset ∧
    (get_account_stats following followers).2.2 =
      followers.toFinset \ following.toFinset ∧
    (get_account_stats following followers).1 ∪
        (get_account_stats following followers).2.1 = following.toFinset ∧
    (get_account_stats following followers).1 ∪
        (get_account_stats following followers).2.2 = followers.toFinset ∧
    Disjoint (get_account_stats following followers).1
      (get_account_stats following followers).2.1 ∧
    Disjoint (get_account_stats following followers).1
      (get_account_stats following followers).2.2 ∧
    Disjoint (get_account_stats following followers).2.1
      (get_account_stats following followers).2.2 ∧
    get_account_stats ["a", "b", "c"] ["b", "c", "d"] =
      ({"b", "c"}, {"a"}, {"d"}) := by
  refine ⟨rfl, rfl, rfl, ?_, ?_, ?_, ?_, ?_, by decide⟩
  · ext a
    simp only [get_account_stats, Finset.mem_union, Finset.mem_inter,
      Finset.mem_sdiff]
    tauto
  · ext a
    simp only [get_account_stats, Finset.mem_union, Finset.mem_inter,
      Finset.mem_sdiff]
    tauto
  · rw [Finset.disjoint_left]
    intro a ha hb
    simp only [get_account_stats, Finset.mem_inter, Finset.mem_sdiff] at ha hb
    tauto
  · rw [Finset.disjoint_left]
    intro a ha hb
    simp only [get_account_stats, Finset.mem_inter, Finset.mem_sdiff] at ha hb
    tauto
  · rw [Finset.disjoint_left]
    intro a ha hb
    simp only [get_account_stats, Finset.mem_sdiff] at ha hb
    tauto

/-- C8: `calculate_adaptive_delay` returns 2 seconds at or below the low-water
threshold 100, 1 second up to the secondary threshold 1000, and 0.2 seconds
above; it is a monotonically non-increasing step function of the remaining
quota, and at each threshold the tie goes to the longer delay. -/
theorem calculate_adaptive_delay_steps (remaining : ℤ) :
    (remaining ≤ MIN_RATE_LIMIT_THRESHOLD →
      calculate_adaptive_delay remaining = 2) ∧
    (MIN_RATE_LIMIT_THRESHOLD < remaining → remaining ≤ 1000 →
      calculate_adaptive_delay remaining = 1) ∧
    (1000 < remaining → calculate_adaptive_delay remaining = 1 / 5) ∧
    (∀ s : ℤ, remaining ≤ s →
      calculate_adaptive_delay s ≤ calculate_adaptive_delay remaining) ∧
    calculate_adaptive_delay 100 = 2 ∧
    calculate_adaptive_delay 1000 = 1 := by
  refine ⟨fun h => ?_, fun h1 h2 => ?_, fun h => ?_, fun s hs => ?_,
    by norm_num [calculate_adaptive_delay, MIN_RATE_LIMIT_THRESHOLD],
    by norm_num [calculate_adaptive_delay, MIN_RATE_LIMIT_THRESHOLD]⟩
  · rw [calculate_adaptive_delay, if_pos h]
  · rw [calculate_adaptive_delay, if_neg (by omega), if_pos h2]
  · rw [calculate_adaptive_delay, if_neg (by
      simp only [MIN_RATE_LIMIT_THRESHOLD]; omega), if_neg (by omega)]
  · unfold calculate_adaptive_delay MIN_RATE_LIMIT_THRESHOLD
    split_ifs <;> try norm_num
    all_goals omega

/-- C9: bulk follow and unfollow runs process identities strictly in input
order, record a per-identity outcome list in exactly the input order (one
entry per attempted identity, so a failure never aborts the batch), and count
exactly the successes; on 5 identities where items 2 and 4 fail the summary is
3 succeeded out of 5 attempted. -/
theorem bulk_order_and_counts :
    (∀ (outcome : String → Bool) (users : List String),
        execute_full_unfollow outcome users =
          (users.map (fun u => (u, outcome u)),
           (users.filter outcome).length)) ∧
    (∀ (outcome : String → Bool) (users : List String),
        (execute_full_unfollow outcome users).1.length = users.length) ∧
    (∀ (outcome : String → Bool) (s : String),
        follow_selected_users outcome s =
          ((parse_usernames s).map (fun u => (u, outcome u)),
           ((parse_usernames s).filter outcome).length)) ∧
    execute_full_unfollow (fun u => !(u == "u2" || u == "u4"))
        ["u1", "u2", "u3", "u4", "u5"] =
      ([("u1", true), ("u2", false), ("u3", true), ("u4", false),
        ("u5", true)], 3) := by
  refine ⟨fun outcome users => ?_, fun outcome users => ?_,
    fun outcome s => ?_, by decide⟩
  · simpa using bulk_loop_spec outcome users [] 0
  · rw [execute_full_unfollow, bulk_loop_spec outcome users [] 0]
    simp
  · simpa [follow_selected_users] using
      bulk_loop_spec outcome (parse_usernames s) [] 0

end App

namespace App

/-- Witness for C8 at concrete quota values: 50 remaining gives 2s, 500 gives
1s, 5000 gives 0.2s, and the delay at 5000 is no longer than at 50. -/
theorem calculate_adaptive_delay_steps_witness :
    calculate_adaptive_delay 50 = 2 ∧ calculate_adaptive_delay 500 = 1 ∧
    calculate_adaptive_delay 5000 = 1 / 5 ∧
    calculate_adaptive_delay 5000 ≤ calculate_adaptive_delay 50 :=
  ⟨(calculate_adaptive_delay_steps 50).1
      (by norm_num [MIN_RATE_LIMIT_THRESHOLD]),
   (calculate_adaptive_delay_steps 500).2.1
      (by norm_num [MIN_RATE_LIMIT_THRESHOLD]) (by norm_num),
   (calculate_adaptive_delay_steps 5000).2.2.1 (by norm_num),
   (calculate_adaptive_delay_steps 50).2.2.2.1 5000 (by norm_num)⟩

/-- C2 counterexample: a 429 on the unfollow DELETE call is surfaced to the
caller as a failure — `unfollow_user` returns `false` — rather than being
recovered internally by waiting and retrying. -/
theorem unfollow_user_rate_limit_surfaced :
    unfollow_user "alice" (ServerAnswer.status 429 1000) = false := by decide

/-- C2 (amended): only the paginated fetch recovers a 429 internally — it
sleeps `max(1, reset - now + 5)` seconds (when the reset lies ahead this is
exactly reset + 5s buffer) and retries the same page, so rate limiting never
surfaces from `get_paginated`; the single-call operations do surface a 429 as
a failure: `unfollow_user` returns `false`, `follow_user` returns `false`
whenever its PUT was actually issued, and `get_user_info` returns `none`,
none of them retrying. -/
theorem rate_limit_recovery_scope :
    (∀ (pages : List (List Nat)) (glitches : List Nat), pages ≠ [] →
        glitches.length = pages.length →
        get_paginated (server_stream pages glitches) =
          some (Except.ok pages.flatten, pages.length + glitches.sum)) ∧
    (∀ reset_time now : ℤ, now ≤ reset_time →
        rate_limit_wait reset_time now = reset_time - now + 5 ∧
        5 ≤ rate_limit_wait reset_time now) ∧
    (∀ (u : String) (reset : Nat),
        unfollow_user u (ServerAnswer.status 429 reset) = false) ∧
    (∀ (username : String) (now : Nat) (c : Cache)
        (fetch : Option (List String)) (reset : Nat),
        (follow_user username now c fetch
          (ServerAnswer.status 429 reset)).2.2.2 = true →
        (follow_user username now c fetch
          (ServerAnswer.status 429 reset)).1 = false) ∧
    (∀ (reset : Nat) (body : String),
        get_user_info (ServerAnswer.status 429 reset) body = none) := by
  refine ⟨fun pages glitches h1 h2 => server_stream_spec pages glitches h1 h2,
    fun reset_time now h => ?_, fun u reset => ?_,
    fun username now c fetch reset => ?_, fun reset body => rfl⟩
  · unfold rate_limit_wait
    rw [max_eq_right (by omega)]
    omega
  · unfold unfollow_user
    by_cases h : py_strip u = ""
    · simp [h]
    · simp [h, make_api_request]
  · intro hput
    unfold follow_user at hput ⊢
    rcases hg : get_following false now c fetch with ⟨o, k⟩
    rcases o with _ | ⟨lst, c1⟩
    · rfl
    · by_cases hm : py_strip (py_lower username) ∈ lst
      · rw [hg] at hput
        simp [hm] at hput
      · simp [hm, make_api_request]

/-- Witness for the amended C2 at concrete inputs: a two-page fetch with one
429 still returns both pages with 3 requests; the 429 wait at reset 10, now 7
is 8 = 10 - 7 + 5; unfollow, follow (with its PUT issued) and user lookup all
fail on 429. -/
theorem rate_limit_recovery_scope_witness :
    get_paginated (server_stream [[1, 2], [3]] [1, 0]) =
      some (Except.ok ([[1, 2], [3]] : List (List Nat)).flatten,
        [[1, 2], [3]].length + [1, 0].sum) ∧
    rate_limit_wait 10 7 = 10 - 7 + 5 ∧
    unfollow_user "bob" (ServerAnswer.status 429 0) = false ∧
    (follow_user "carol" 0 ⟨[], 0, [], 0⟩ (some [])
      (ServerAnswer.status 429 9)).1 = false ∧
    get_user_info (ServerAnswer.status 429 0) "profile" = none :=
  ⟨rate_limit_recovery_scope.1 [[1, 2], [3]] [1, 0] (by decide) (by decide),
   (rate_limit_recovery_scope.2.1 10 7 (by decide)).1,
   rate_limit_recovery_scope.2.2.1 "bob" 0,
   rate_limit_recovery_scope.2.2.2.1 "carol" 0 ⟨[], 0, [], 0⟩ (some []) 9
     (by decide),
   rate_limit_recovery_scope.2.2.2.2 0 "profile"⟩

/-- C3: on a server holding `pages` (P pages, N items in total), the
pagination loop returns all items in server order; with `glitches[k]` 429
responses before page `k` the retried request targets the same page, so
nothing is lost or duplicated, and the total number of requests is P plus the
number of 429s; with no 429s it is exactly P. -/
theorem get_paginated_complete {α : Type} (pages : List (List α))
    (glitches : List Nat) (hne : pages ≠ [])
    (hlen : glitches.length = pages.length) :
    get_paginated (server_stream pages glitches) =
      some (Except.ok pages.flatten, pages.length + glitches.sum) ∧
    get_paginated (server_stream pages (List.replicate pages.length 0)) =
      some (Except.ok pages.flatten, pages.length) := by
  constructor
  · exact server_stream_spec pages glitches hne hlen
  · have h := server_stream_spec pages (List.replicate pages.length 0) hne
      (by simp)
    simpa using h

/-- Witness for C3: three pages of sizes 1, 2, 1 with 0, 2, 1 rate-limit hits
yield all four items in order using 3 + 3 requests; without hits, 3. -/
theorem get_paginated_complete_witness :
    get_paginated (server_stream [[10], [20, 30], [40]] [0, 2, 1]) =
      some (Except.ok ([[10], [20, 30], [40]] : List (List Nat)).flatten,
        [[10], [20, 30], [40]].length + [0, 2, 1].sum) ∧
    get_paginated (server_stream [[10], [20, 30], [40]]
        (List.replicate [[10], [20, 30], [40]].length 0)) =
      some (Except.ok ([[10], [20, 30], [40]] : List (List Nat)).flatten,
        [[10], [20, 30], [40]].length) :=
  get_paginated_complete [[10], [20, 30], [40]] [0, 2, 1] (by decide)
    (by decide)

end App

namespace App

/-- A fresh non-empty following cache entry is a hit: returned unchanged with
zero network fetches. -/
theorem get_following_hit (now : Nat) (c : Cache) (fetch : Option (List String))
    (h1 : c.data_following ≠ []) (h2 : now - c.ts_following < CACHE_TIMEOUT) :
    get_following false now c fetch = (some (c.data_following, c), 0) := by
  unfold get_following
  rw [if_pos ⟨rfl, h1, h2⟩]

/-- An empty or expired following entry fails the hit test. -/
theorem get_following_no_hit (now : Nat) (c : Cache)
    (h : c.data_following = [] ∨ CACHE_TIMEOUT ≤ now - c.ts_following) :
    ¬(false = false ∧ c.data_following ≠ [] ∧
      now - c.ts_following < CACHE_TIMEOUT) := by
  rintro ⟨-, hne, hlt⟩
  rcases h with h | h
  · exact hne h
  · omega

/-- On an empty or expired entry with a successful fetch, `get_following`
refetches: one network call, entry replaced and restamped. -/
theorem get_following_refetch (now : Nat) (c : Cache) (lst : List String)
    (h : c.data_following = [] ∨ CACHE_TIMEOUT ≤ now - c.ts_following) :
    get_following false now c (some lst) =
      (some (lst, { c with data_following := lst, ts_following := now }), 1) := by
  unfold get_following
  rw [if_neg (get_following_no_hit now c h)]

/-- The network fetch count of `follow_user` is exactly the fetch count of the
`get_following` call its membership check makes. -/
theorem follow_user_fetch_count (username : String) (now : Nat) (c : Cache)
    (fetch : Option (List String)) (putAns : ServerAnswer) :
    (follow_user username now c fetch putAns).2.2.1 =
      (get_following false now c fetch).2 := by
  unfold follow_user
  rcases hg : get_following false now c fetch with ⟨o, k⟩
  rcases o with _ | ⟨lst, c1⟩
  · rfl
  · by_cases hm : py_strip (py_lower username) ∈ lst
    · simp [hm]
    · rcases hr : make_api_request .PUT putAns with code | r | code <;>
        simp [hm, hr] <;> split <;> rfl

/-- C4 counterexample: with the startup cache (both entries empty), the
membership check inside `follow_user` performs a fresh network fetch of the
following list (fetch count 1, third component), contradicting "only a cache
read — never a fresh network fetch". -/
theorem follow_user_membership_fetches :
    follow_user "alice" 1000 ⟨[], 0, [], 0⟩ (some ["bob"])
      (ServerAnswer.status 204 0) = (true, ⟨["bob"], 0, [], 0⟩, 1, true) := by
  decide

/-- C4 (amended): the membership check of `follow_user` goes through
`get_following`, so it is a pure cache read (zero network fetches) exactly
when the cached following list is non-empty and fresh; with an empty or
expired cache the check itself performs one network fetch.  Whatever list the
check consulted (cached or freshly fetched): when the lowercased, stripped
identity is in it the call returns success without issuing a PUT; otherwise a
single PUT is issued, and a 204 answer returns success and invalidates the
following cache entry by zeroing its timestamp. -/
theorem follow_user_cache_check (username : String) (now : Nat) (c : Cache)
    (fetch : Option (List String)) (putAns : ServerAnswer) :
    (c.data_following ≠ [] → now - c.ts_following < CACHE_TIMEOUT →
      (follow_user username now c fetch putAns).2.2.1 = 0) ∧
    ((c.data_following = [] ∨ CACHE_TIMEOUT ≤ now - c.ts_following) →
      (follow_user username now c fetch putAns).2.2.1 = 1) ∧
    (∀ lst c1, (get_following false now c fetch).1 = some (lst, c1) →
      py_strip (py_lower username) ∈ lst →
      follow_user username now c fetch putAns =
        (true, c1, (get_following false now c fetch).2, false)) ∧
    (∀ lst c1, (get_following false now c fetch).1 = some (lst, c1) →
      py_strip (py_lower username) ∉ lst →
      (follow_user username now c fetch putAns).2.2.2 = true) ∧
    (∀ lst c1 reset, (get_following false now c fetch).1 = some (lst, c1) →
      py_strip (py_lower username) ∉ lst →
      follow_user username now c fetch (ServerAnswer.status 204 reset) =
        (true, { c1 with ts_following := 0 },
          (get_following false now c fetch).2, true)) := by
  refine ⟨fun h1 h2 => ?_, fun h => ?_, fun lst c1 hr hm => ?_,
    fun lst c1 hr hm => ?_, fun lst c1 reset hr hm => ?_⟩
  · rw [follow_user_fetch_count, get_following_hit now c fetch h1 h2]
  · rw [follow_user_fetch_count]
    unfold get_following
    rw [if_neg (get_following_no_hit now c h)]
    rcases fetch with _ | lst
    · by_cases hd : c.data_following = [] <;> simp [hd]
    · rfl
  · unfold follow_user
    rcases hg : get_following false now c fetch with ⟨o, k⟩
    rw [hg] at hr
    rcases o with _ | ⟨lst2, c2⟩
    · simp at hr
    · obtain ⟨rfl, rfl⟩ : lst2 = lst ∧ c2 = c1 := by simpa using hr
      simp [hm]
  · unfold follow_user
    rcases hg : get_following false now c fetch with ⟨o, k⟩
    rw [hg] at hr
    rcases o with _ | ⟨lst2, c2⟩
    · simp at hr
    · obtain ⟨rfl, rfl⟩ : lst2 = lst ∧ c2 = c1 := by simpa using hr
      rcases hp : make_api_request .PUT putAns with code | r | code <;>
        simp [hm, hp] <;> split <;> rfl
  · unfold follow_user
    rcases hg : get_following false now c fetch with ⟨o, k⟩
    rw [hg] at hr
    rcases o with _ | ⟨lst2, c2⟩
    · simp at hr
    · obtain ⟨rfl, rfl⟩ : lst2 = lst ∧ c2 = c1 := by simpa using hr
      simp [hm, make_api_request]

/-- C5 counterexample: a successful refresh that legitimately stores the
empty list (t = 100), followed at t = 500 by a failed refresh, propagates the
error (`none`) even though a previously cached value exists — the code's
truthiness test cannot see an empty cached value. -/
theorem stale_fallback_empty_propagates :
    get_following false 100 ⟨[], 0, [], 0⟩ (some []) =
      (some ([], ⟨[], 100, [], 0⟩), 1) ∧
    get_following false 500 ⟨[], 100, [], 0⟩ none = (none, 1) := by decide

/-- C5 (amended): on a failed refresh of either relation, if the previously
cached list is non-empty it is returned (even if expired) and the error is
not propagated; if the cached list is empty — including the never-fetched
startup state and a legitimately cached empty relation — the error is
propagated. -/
theorem stale_fallback (force : Bool) (now : Nat) (c : Cache) :
    (c.data_following ≠ [] →
      (get_following force now c none).1 = some (c.data_following, c)) ∧
    (c.data_following = [] → get_following force now c none = (none, 1)) ∧
    (c.data_followers ≠ [] →
      (get_followers force now c none).1 = some (c.data_followers, c)) ∧
    (c.data_followers = [] → get_followers force now c none = (none, 1)) := by
  refine ⟨fun h => ?_, fun h => ?_, fun h => ?_, fun h => ?_⟩
  · unfold get_following
    split_ifs with hc
    · rfl
    · simp [h]
  · unfold get_following
    rw [if_neg (by simp [h])]
    simp [h]
  · unfold get_followers
    split_ifs with hc
    · rfl
    · simp [h]
  · unfold get_followers
    rw [if_neg (by simp [h])]
    simp [h]

end App

namespace App

/-- Witness for the amended C4, exercising every path: a fresh cached member
short-circuits with zero fetches and no PUT; a refetched list containing the
name also short-circuits without a PUT; an expired entry costs one fetch; a
fresh cache missing the name issues the PUT (status 500 fails, 204 succeeds
and zeroes the following timestamp); the empty startup cache does the same
after its refetch. -/
theorem follow_user_cache_check_witness :
    follow_user "dave" 100 ⟨["dave"], 50, [], 0⟩ none ServerAnswer.transportFail
      = (true, ⟨["dave"], 50, [], 0⟩, 0, false) ∧
    follow_user "dave" 700 ⟨[], 0, [], 0⟩ (some ["dave"])
      ServerAnswer.transportFail = (true, ⟨["dave"], 700, [], 0⟩, 1, false) ∧
    (follow_user "dave" 700 ⟨["x"], 50, [], 0⟩ (some ["x"])
      (ServerAnswer.status 204 0)).2.2.1 = 1 ∧
    (follow_user "dave" 100 ⟨["x"], 50, [], 0⟩ none
      (ServerAnswer.status 500 0)).2.2.2 = true ∧
    follow_user "dave" 100 ⟨["x"], 50, [], 0⟩ none
      (ServerAnswer.status 204 0) = (true, ⟨["x"], 0, [], 0⟩, 0, true) ∧
    follow_user "dave" 700 ⟨[], 0, [], 0⟩ (some ["bob"])
      (ServerAnswer.status 204 0) = (true, ⟨["bob"], 0, [], 0⟩, 1, true) :=
  ⟨(follow_user_cache_check "dave" 100 ⟨["dave"], 50, [], 0⟩ none
      ServerAnswer.transportFail).2.2.1 ["dave"] ⟨["dave"], 50, [], 0⟩
      (by decide) (by decide),
   (follow_user_cache_check "dave" 700 ⟨[], 0, [], 0⟩ (some ["dave"])
      ServerAnswer.transportFail).2.2.1 ["dave"] ⟨["dave"], 700, [], 0⟩
      (by decide) (by decide),
   (follow_user_cache_check "dave" 700 ⟨["x"], 50, [], 0⟩ (some ["x"])
      (ServerAnswer.status 204 0)).2.1 (by decide),
   (follow_user_cache_check "dave" 100 ⟨["x"], 50, [], 0⟩ none
      (ServerAnswer.status 500 0)).2.2.2.1 ["x"] ⟨["x"], 50, [], 0⟩
      (by decide) (by decide),
   (follow_user_cache_check "dave" 100 ⟨["x"], 50, [], 0⟩ none
      (ServerAnswer.status 204 0)).2.2.2.2 ["x"] ⟨["x"], 50, [], 0⟩ 0
      (by decide) (by decide),
   (follow_user_cache_check "dave" 700 ⟨[], 0, [], 0⟩ (some ["bob"])
      (ServerAnswer.status 204 0)).2.2.2.2 ["bob"] ⟨["bob"], 700, [], 0⟩ 0
      (by decide) (by decide)⟩

/-- Witness for the amended C5: an expired non-empty entry is served stale on
a failed refresh; the empty startup entry propagates the failure. -/
theorem stale_fallback_witness :
    (get_following false 900 ⟨["a"], 100, [], 0⟩ none).1 =
      some (["a"], ⟨["a"], 100, [], 0⟩) ∧
    get_following false 900 ⟨[], 100, ["b"], 0⟩ none = (none, 1) ∧
    (get_followers false 900 ⟨[], 0, ["b"], 100⟩ none).1 =
      some (["b"], ⟨[], 0, ["b"], 100⟩) ∧
    get_followers false 900 ⟨["a"], 0, [], 100⟩ none = (none, 1) :=
  ⟨(stale_fallback false 900 ⟨["a"], 100, [], 0⟩).1 (by decide),
   (stale_fallback false 900 ⟨[], 100, ["b"], 0⟩).2.1 rfl,
   (stale_fallback false 900 ⟨[], 0, ["b"], 100⟩).2.2.1 (by decide),
   (stale_fallback false 900 ⟨["a"], 0, [], 100⟩).2.2.2 rfl⟩

/-- C6 counterexample: a successful fetch at t = 100 legitimately stores the
empty list; a read at t = 150 — a cache entry of age 50 < 300 exists — still
performs a network call (count 1) and returns the refetched data rather than
the entry. -/
theorem cache_ttl_empty_refetch :
    get_following false 100 ⟨[], 0, [], 0⟩ (some []) =
      (some ([], ⟨[], 100, [], 0⟩), 1) ∧
    get_following false 150 ⟨[], 100, [], 0⟩ (some ["x"]) =
      (some (["x"], ⟨["x"], 150, [], 0⟩), 1) := by decide

/-- C6 (amended): a non-forced read of a relation whose entry is non-empty and
younger than the TTL returns the entry unchanged with zero network calls; a
read of an expired or empty entry triggers exactly one refetch. -/
theorem cache_ttl (now : Nat) (c : Cache) (fetch : Option (List String)) :
    (c.data_following ≠ [] → now - c.ts_following < CACHE_TIMEOUT →
      get_following false now c fetch = (some (c.data_following, c), 0)) ∧
    ((c.data_following = [] ∨ CACHE_TIMEOUT ≤ now - c.ts_following) →
      (get_following false now c fetch).2 = 1) ∧
    (c.data_followers ≠ [] → now - c.ts_followers < CACHE_TIMEOUT →
      get_followers false now c fetch = (some (c.data_followers, c), 0)) ∧
    ((c.data_followers = [] ∨ CACHE_TIMEOUT ≤ now - c.ts_followers) →
      (get_followers false now c fetch).2 = 1) := by
  refine ⟨fun h1 h2 => get_following_hit now c fetch h1 h2, fun h => ?_,
    fun h1 h2 => ?_, fun h => ?_⟩
  · unfold get_following
    rw [if_neg (get_following_no_hit now c h)]
    rcases fetch with _ | lst
    · by_cases hd : c.data_following = [] <;> simp [hd]
    · rfl
  · unfold get_followers
    rw [if_pos ⟨rfl, h1, h2⟩]
  · unfold get_followers
    rw [if_neg ?hn]
    case hn =>
      rintro ⟨-, hne, hlt⟩
      rcases h with h | h
      · exact hne h
      · omega
    rcases fetch with _ | lst
    · by_cases hd : c.data_followers = [] <;> simp [hd]
    · rfl

/-- Witness for the amended C6: a fresh non-empty entry is a zero-call hit; an
expired entry and an empty entry each cost one refetch. -/
theorem cache_ttl_witness :
    get_following false 200 ⟨["a"], 100, [], 0⟩ (some ["z"]) =
      (some (["a"], ⟨["a"], 100, [], 0⟩), 0) ∧
    (get_following false 900 ⟨["a"], 100, [], 0⟩ (some ["z"])).2 = 1 ∧
    get_followers false 200 ⟨[], 0, ["b"], 100⟩ (some ["z"]) =
      (some (["b"], ⟨[], 0, ["b"], 100⟩), 0) ∧
    (get_followers false 200 ⟨[], 0, [], 100⟩ (some ["z"])).2 = 1 :=
  ⟨(cache_ttl 200 ⟨["a"], 100, [], 0⟩ (some ["z"])).1 (by decide) (by decide),
   (cache_ttl 900 ⟨["a"], 100, [], 0⟩ (some ["z"])).2.1 (Or.inr (by decide)),
   (cache_ttl 200 ⟨[], 0, ["b"], 100⟩ (some ["z"])).2.2.1 (by decide)
     (by decide),
   (cache_ttl 200 ⟨[], 0, [], 100⟩ (some ["z"])).2.2.2 (Or.inl rfl)⟩

/-- C10: an empty cached list is never a cache hit — a non-forced read of a
relation whose stored list is empty attempts a network refetch no matter how
fresh the timestamp is — while a non-empty list within the TTL is returned
with zero network calls. -/
theorem empty_cache_never_hit (now : Nat) (c : Cache)
    (fetch : Option (List String)) :
    (c.data_following = [] → (get_following false now c fetch).2 = 1) ∧
    (c.data_followers = [] → (get_followers false now c fetch).2 = 1) ∧
    (c.data_following ≠ [] → now - c.ts_following < CACHE_TIMEOUT →
      get_following false now c fetch = (some (c.data_following, c), 0)) ∧
    (c.data_followers ≠ [] → now - c.ts_followers < CACHE_TIMEOUT →
      get_followers false now c fetch = (some (c.data_followers, c), 0)) := by
  refine ⟨fun h => ?_, fun h => ?_,
    fun h1 h2 => get_following_hit now c fetch h1 h2, fun h1 h2 => ?_⟩
  · unfold get_following
    rw [if_neg (by simp [h])]
    rcases fetch with _ | lst <;> simp [h]
  · unfold get_followers
    rw [if_neg (by simp [h])]
    rcases fetch with _ | lst <;> simp [h]
  · unfold get_followers
    rw [if_pos ⟨rfl, h1, h2⟩]

/-- Witness for C10: a fetch succeeding within the TTL window with a fresh
empty entry still refetches (count 1) for both relations; fresh non-empty
entries hit with zero calls. -/
theorem empty_cache_never_hit_witness :
    (get_following false 150 ⟨[], 100, [], 0⟩ (some ["x"])).2 = 1 ∧
    (get_followers false 150 ⟨[], 0, [], 100⟩ (some ["x"])).2 = 1 ∧
    get_following false 150 ⟨["a"], 100, [], 0⟩ (some ["x"]) =
      (some (["a"], ⟨["a"], 100, [], 0⟩), 0) ∧
    get_followers false 150 ⟨[], 0, ["b"], 100⟩ (some ["x"]) =
      (some (["b"], ⟨[], 0, ["b"], 100⟩), 0) :=
  ⟨(empty_cache_never_hit 150 ⟨[], 100, [], 0⟩ (some ["x"])).1 rfl,
   (empty_cache_never_hit 150 ⟨[], 0, [], 100⟩ (some ["x"])).2.1 rfl,
   (empty_cache_never_hit 150 ⟨["a"], 100, [], 0⟩ (some ["x"])).2.2.1
     (by decide) (by decide),
   (empty_cache_never_hit 150 ⟨[], 0, ["b"], 100⟩ (some ["x"])).2.2.2
     (by decide) (by decide)⟩

end App

namespace App

/-- C7: against a server whose following set contains no duplicates,
`unfollow_user` issues a single DELETE and returns success both on 204
(deleted) and on 404 (already absent); unfollowing the same identity twice in
sequence succeeds both times and the second call leaves the server's
following set unchanged; any status other than 204/404 (including 429 and a
transport failure) returns failure — the model consumes exactly one server
answer per call, so no automatic retry occurs. -/
theorem unfollow_user_idempotent (st : List String) (u : String)
    (hnd : st.Nodup) (ht : py_strip u = u) (hne : u ≠ "") :
    unfollow_user u (server_delete st u).1 = true ∧
    unfollow_user u (server_delete (server_delete st u).2 u).1 = true ∧
    (server_delete (server_delete st u).2 u).2 = (server_delete st u).2 ∧
    (∀ code reset, code ≠ 204 → code ≠ 404 →
      unfollow_user u (ServerAnswer.status code reset) = false) ∧
    unfollow_user u ServerAnswer.transportFail = false := by
  have hu : ¬(py_strip u = "") := by rw [ht]; exact hne
  have h204 : ∀ r, unfollow_user u (ServerAnswer.status 204 r) = true := by
    intro r
    unfold unfollow_user
    simp [hu, make_api_request]
  have h404 : ∀ r, unfollow_user u (ServerAnswer.status 404 r) = true := by
    intro r
    unfold unfollow_user
    simp [hu, make_api_request]
  have hmain : unfollow_user u (server_delete st u).1 = true ∧
      unfollow_user u (server_delete (server_delete st u).2 u).1 = true ∧
      (server_delete (server_delete st u).2 u).2 = (server_delete st u).2 := by
    by_cases hin : u ∈ st
    · have h1 : server_delete st u = (ServerAnswer.status 204 0, st.erase u) := by
        unfold server_delete
        rw [if_pos hin]
      have h2 : server_delete (st.erase u) u =
          (ServerAnswer.status 404 0, st.erase u) := by
        unfold server_delete
        rw [if_neg hnd.not_mem_erase]
      refine ⟨?_, ?_, ?_⟩
      · rw [h1]; exact h204 0
      · rw [h1]
        show unfollow_user u (server_delete (st.erase u) u).1 = true
        rw [h2]; exact h404 0
      · rw [h1]
        show (server_delete (st.erase u) u).2 = st.erase u
        rw [h2]
    · have h1 : server_delete st u = (ServerAnswer.status 404 0, st) := by
        unfold server_delete
        rw [if_neg hin]
      refine ⟨?_, ?_, ?_⟩
      · rw [h1]; exact h404 0
      · rw [h1]
        show unfollow_user u (server_delete st u).1 = true
        rw [h1]; exact h404 0
      · rw [h1]
        show (server_delete st u).2 = st
        rw [h1]
  refine ⟨hmain.1, hmain.2.1, hmain.2.2, fun code reset hc1 hc2 => ?_, ?_⟩
  · by_cases h429 : code = 429
    · subst h429
      unfold unfollow_user
      simp [hu, make_api_request]
    · by_cases h400 : 400 ≤ code
      · unfold unfollow_user
        simp [hu, make_api_request, h429, h400, hc2]
      · unfold unfollow_user
        simp [hu, make_api_request, h429, h400, hc1, hc2]
  · unfold unfollow_user
    simp [hu, make_api_request]

/-- Witness for C7 on the concrete server set ["alice", "bob"]: deleting
"alice" twice succeeds twice with the set unchanged after the second call;
status 500 and transport failure yield failure. -/
theorem unfollow_user_idempotent_witness :
    unfollow_user "alice" (server_delete ["alice", "bob"] "alice").1 = true ∧
    unfollow_user "alice"
      (server_delete (server_delete ["alice", "bob"] "alice").2 "alice").1 =
      true ∧
    (server_delete (server_delete ["alice", "bob"] "alice").2 "alice").2 =
      (server_delete ["alice", "bob"] "alice").2 ∧
    unfollow_user "alice" (ServerAnswer.status 500 0) = false ∧
    unfollow_user "alice" ServerAnswer.transportFail = false :=
  have h := unfollow_user_idempotent ["alice", "bob"] "alice" (by decide)
    (by decide) (by decide)
  ⟨h.1, h.2.1, h.2.2.1, h.2.2.2.1 500 0 (by decide) (by decide), h.2.2.2.2⟩

end App
